import Mathlib

set_option linter.unusedVariables false

/-! Verification of the CookAI live-proxy server (src/server).

    The file shallowly embeds the parts of the code that the properties below
    are about: the session configuration translator and the three inner pumps
    of gemini_live.py, the websocket endpoint of main.py (auth gate, setup
    handshake, supervisor epilogue), and the token extraction of auth.py.
    Python-level behaviours that matter (dictionary membership, indexing,
    iteration, exception kinds, truthiness, pydantic field validation) are
    modelled explicitly. -/

/-- JSON values as produced by Python json.loads.  Numbers are modelled as
integers; no property below depends on fractional payloads.  Objects are
association lists; objects coming from json.loads have unique keys. -/
inductive Json
  | null
  | bool (b : Bool)
  | num (n : Int)
  | str (s : String)
  | arr (elems : List Json)
  | obj (fields : List (String × Json))
deriving Repr

/-- First-match association lookup (json.loads objects have unique keys). -/
def jsonLookup : List (String × Json) → String → Option Json
  | [], _ => none
  | (k, v) :: rest, key => if k = key then some v else jsonLookup rest key

/-- Python truthiness of a JSON value. -/
def jsonTruthy : Json → Bool
  | .null => false
  | .bool b => b
  | .num n => n != 0
  | .str s => s != ""
  | .arr xs => !xs.isEmpty
  | .obj fs => !fs.isEmpty

/-- Substring test, used by Python membership on strings. -/
def strContainsSub (s pat : String) : Bool := (s.splitOn pat).length != 1

/-- Kinds of Python exceptions relevant to the embedded code. -/
inductive PyErr
  | keyError
  | indexError
  | typeError
  | attributeError
  | validationError
deriving Repr, DecidableEq

/-- Python membership `k in x` for a string key k: key lookup on dicts,
element equality on lists, substring on strings, TypeError otherwise. -/
def pyContains (k : String) : Json → Except PyErr Bool
  | .obj fs => .ok (jsonLookup fs k).isSome
  | .arr xs => .ok (xs.any fun x => match x with | .str s => s == k | _ => false)
  | .str s => .ok (strContainsSub s k)
  | _ => .error .typeError

/-- Python indexing `x[k]` with a string key: dict lookup (KeyError when the
key is missing), TypeError on every other value. -/
def pyIndexStr (j : Json) (k : String) : Except PyErr Json :=
  match j with
  | .obj fs =>
    match jsonLookup fs k with
    | some v => .ok v
    | none => .error .keyError
  | _ => .error .typeError

/-- Python indexing `x[0]`: first element of a list or string (IndexError when
empty), KeyError on a dict whose keys are strings, TypeError otherwise. -/
def pyIndexNat0 : Json → Except PyErr Json
  | .arr (x :: _) => .ok x
  | .arr [] => .error .indexError
  | .str s =>
    match s.data with
    | [] => .error .indexError
    | c :: _ => .ok (.str (String.mk [c]))
  | .obj _ => .error .keyError
  | _ => .error .typeError

/-- Python iteration `for x in v`: elements of a list, characters of a string,
keys of a dict, TypeError otherwise. -/
def pyIter : Json → Except PyErr (List Json)
  | .arr xs => .ok xs
  | .str s => .ok (s.data.map fun c => Json.str (String.mk [c]))
  | .obj fs => .ok (fs.map fun p => Json.str p.1)
  | _ => .error .typeError

/-- Python `d.get(k)`: none both for a missing key and for a stored JSON null
(both are Python None); AttributeError on non-dicts. -/
def pyGet (j : Json) (k : String) : Except PyErr (Option Json) :=
  match j with
  | .obj fs =>
    .ok (match jsonLookup fs k with
      | some .null => none
      | some v => some v
      | none => none)
  | _ => .error .attributeError

/-- Python `d.get(k, default)`: the stored value when the key is present (a
stored JSON null is returned as null), the default when missing. -/
def pyGetD (j : Json) (k : String) (default : Json) : Except PyErr Json :=
  match j with
  | .obj fs => .ok ((jsonLookup fs k).getD default)
  | _ => .error .attributeError

/-! Session configuration translator (gemini_live.py, start_session lines
    48 to 138).  The translator reads the setup dict received from the client
    and builds the keyword arguments of types.LiveConnectConfig. -/

/-- google.genai types.Modality.  The SDK enum is case-insensitive and turns
an unknown string into a dynamically created member; calling it on a
non-string raises (the missing-value hook calls value.upper()). -/
inductive Modality
  | audio
  | text
  | image
  | modality_unspecified
  | unknown (s : String)
deriving Repr, DecidableEq

def Modality.ofJson : Json → Except PyErr Modality
  | Json.str s =>
    .ok
      (if s = "AUDIO" then .audio
       else if s = "TEXT" then .text
       else if s = "IMAGE" then .image
       else if s = "MODALITY_UNSPECIFIED" then .modality_unspecified
       else
         let u := s.toUpper
         if u = "AUDIO" then .audio
         else if u = "TEXT" then .text
         else if u = "IMAGE" then .image
         else if u = "MODALITY_UNSPECIFIED" then .modality_unspecified
         else .unknown s)
  | _ => .error .attributeError

/-- Left-to-right effectful map, the embedding of a Python loop that builds a
list and stops at the first raised exception. -/
def exceptMapList {α β : Type} (f : α → Except PyErr β) : List α → Except PyErr (List β)
  | [] => .ok []
  | x :: xs => do
    let y ← f x
    let ys ← exceptMapList f xs
    pure (y :: ys)

/-- types.FunctionDeclaration: pydantic model with optional string name and
description and an optional object-valued parameters schema. -/
structure FunctionDeclaration where
  name : Option String
  description : Option String
  parameters : Option Json
deriving Repr

/-- Pydantic validation of an Optional string field: None passes, a string
passes, anything else raises ValidationError. -/
def validateOptStr : Option Json → Except PyErr (Option String)
  | none => .ok none
  | some .null => .ok none
  | some (.str s) => .ok (some s)
  | some _ => .error .validationError

/-- Pydantic validation of an optional object-valued field after defaulting:
null passes as None, a dict passes, anything else raises ValidationError. -/
def validateOptDict : Json → Except PyErr (Option Json)
  | .null => .ok none
  | .obj fs => .ok (some (.obj fs))
  | _ => .error .validationError

/-- One types.FunctionDeclaration built from one entry of the
functionDeclarations list (gemini_live.py lines 86 to 93).  fd.get raises
AttributeError on a non-dict, and pydantic rejects a non-string name or
description and a non-object parameters value. -/
def parseFD (fd : Json) : Except PyErr FunctionDeclaration := do
  let n ← pyGet fd "name"
  let d ← pyGet fd "description"
  let p ← pyGet fd "parameters"
  let name ← validateOptStr n
  let description ← validateOptStr d
  let parameters ←
    match p with
    | none => Except.ok none
    | some v => validateOptDict v
  pure { name := name, description := description, parameters := parameters }

/-- Body of one iteration over the tools list (gemini_live.py lines 83 to 96):
when the block has a functionDeclarations key, parse every declaration and
produce the new value of the tools entry. -/
def toolBlockStep (b : Json) : Except PyErr (Option (List FunctionDeclaration)) := do
  let has ← pyContains "functionDeclarations" b
  if has then do
    let fdsJ ← pyIndexStr b "functionDeclarations"
    let items ← pyIter fdsJ
    let fds ← exceptMapList parseFD items
    pure (some fds)
  else
    pure none

/-- The for-loop over tool blocks.  Each block carrying declarations
overwrites the tools entry; the surrounding try swallows any exception and
aborts the remaining iterations, keeping the last successful assignment. -/
def toolsLoop : List Json → Option (List FunctionDeclaration) →
    Option (List FunctionDeclaration)
  | [], acc => acc
  | b :: rest, acc =>
    match toolBlockStep b with
    | .error _ => acc
    | .ok none => toolsLoop rest acc
    | .ok (some fds) => toolsLoop rest (some fds)

/-- Tools field (gemini_live.py lines 79 to 98).  The membership guard is
outside the try block, so only it can raise; everything inside the try is
swallowed (the value is skipped when it is not a list). -/
def toolsField (sc : Json) : Except PyErr (Option (List FunctionDeclaration)) := do
  let has ← pyContains "tools" sc
  if has then
    pure
      (match pyIndexStr sc "tools" with
       | .error _ => none
       | .ok (Json.arr blocks) => toolsLoop blocks none
       | .ok _ => none)
  else
    pure none

/-- Response modalities field (gemini_live.py lines 56 to 59): no guard
against a non-iterable value or non-string elements, so those raise. -/
def respModalitiesField (sc : Json) : Except PyErr (Option (List Modality)) := do
  let has ← pyContains "responseModalities" sc
  if has then do
    let v ← pyIndexStr sc "responseModalities"
    let items ← pyIter v
    let ms ← exceptMapList Modality.ofJson items
    pure (some ms)
  else
    pure none

/-- The nested extraction text["parts"][0]["text"] of the object form of the
system instruction (gemini_live.py line 71). -/
def sysChain (t : Json) : Except PyErr Json := do
  let p ← pyIndexStr t "parts"
  let p0 ← pyIndexNat0 p
  pyIndexStr p0 "text"

/-- Pydantic validation of types.Part text, an Optional string. -/
def partTextValidate : Json → Except PyErr (Option String)
  | Json.null => .ok none
  | Json.str s => .ok (some s)
  | _ => .error .validationError

/-- System instruction field (gemini_live.py lines 62 to 76).  A string value
is taken as is; a dict value goes through the nested extraction, whose
KeyError, IndexError and TypeError are swallowed but whose pydantic
ValidationError is not; any other value is ignored. -/
def sysInstrField (sc : Json) : Except PyErr (Option (Option String)) := do
  let has ← pyContains "systemInstruction" sc
  if has then do
    let text ← pyIndexStr sc "systemInstruction"
    match text with
    | Json.str s => pure (some (some s))
    | Json.obj o =>
      match sysChain (Json.obj o) with
      | .error e =>
        if e = .keyError ∨ e = .indexError ∨ e = .typeError then pure none
        else .error e
      | .ok t => do
        let v ← partTextValidate t
        pure (some v)
    | _ => pure none
  else
    pure none

/-- Context window compression field (gemini_live.py lines 101 to 108): the
membership test on the sub-value is unguarded, so a value that does not
support membership raises TypeError. -/
def cwcField (sc : Json) : Except PyErr Bool := do
  let has ← pyContains "contextWindowCompression" sc
  if has then do
    let cwc ← pyIndexStr sc "contextWindowCompression"
    let hasSW ← pyContains "slidingWindow" cwc
    pure hasSW
  else
    pure false

/-- The nested extraction of the voice name (gemini_live.py lines 125 to 127). -/
def speechChain (sc : Json) : Except PyErr Json := do
  let a ← pyIndexStr sc "speechConfig"
  let b ← pyIndexStr a "voiceConfig"
  let c ← pyIndexStr b "prebuiltVoiceConfig"
  pyIndexStr c "voiceName"

/-- Speech config field (gemini_live.py lines 123 to 136).  KeyError and
TypeError from the nested extraction are swallowed; a pydantic
ValidationError from a non-string non-null voice name is not. -/
def speechField (sc : Json) : Except PyErr (Option (Option String)) := do
  let has ← pyContains "speechConfig" sc
  if has then
    match speechChain sc with
    | .error e =>
      if e = .keyError ∨ e = .typeError then pure none else .error e
    | .ok v => do
      let vn ← partTextValidate v
      pure (some vn)
  else
    pure none

/-- The keyword arguments of types.LiveConnectConfig that start_session
builds.  A Content value reduces to its single Part text, a Tool value to its
declaration list, the two transcription configs to flags and the speech
config to its optional voice name. -/
structure LiveConnectConfig where
  response_modalities : List Modality
  system_instruction : Option (Option String)
  tools : Option (List FunctionDeclaration)
  context_window_compression : Bool
  output_audio_transcription : Bool
  input_audio_transcription : Bool
  speech_config : Option (Option String)
deriving Repr

/-- The initial config_args of gemini_live.py line 48: audio-only response. -/
def defaultConfigArgs : LiveConnectConfig :=
  { response_modalities := [Modality.audio]
    system_instruction := none
    tools := none
    context_window_compression := false
    output_audio_transcription := false
    input_audio_transcription := false
    speech_config := none }

/-- The session configuration translator (gemini_live.py lines 48 to 138):
given the optional setup dict held by the server, build the LiveConnectConfig
arguments, propagating exactly the Python exceptions the source does not
catch.  A falsy setup value (None or an empty dict) keeps the defaults. -/
def configArgsOfSetup (setup_config : Option Json) : Except PyErr LiveConnectConfig :=
  match setup_config with
  | none => .ok defaultConfigArgs
  | some sc =>
    if jsonTruthy sc then do
      let rm ← respModalitiesField sc
      let si ← sysInstrField sc
      let tl ← toolsField sc
      let cw ← cwcField sc
      let oat ← pyContains "outputAudioTranscription" sc
      let iat ← pyContains "inputAudioTranscription" sc
      let sp ← speechField sc
      pure
        { response_modalities := rm.getD [Modality.audio]
          system_instruction := si
          tools := tl
          context_window_compression := cw
          output_audio_transcription := oat
          input_audio_transcription := iat
          speech_config := sp }
    else
      .ok defaultConfigArgs

example :
    configArgsOfSetup (some (Json.obj [("contextWindowCompression", Json.num 5)]))
      = .error PyErr.typeError := rfl

/-! Normalized events (gemini_live.py start_session docstring lines 41 to 46):
    the receive pump and the setup signal feed an internal queue whose items
    are dicts with a distinguished _type marker, a plain JSON dict to forward,
    or the None sentinel that ends the session. -/

/-- One item of the internal event queue. -/
inductive Event
  | audio (data : Option (List Nat))
  | setupComplete
  | error (msg : String)
  | ended
  | jsonEvent (j : Json)
deriving Repr

/-! Upstream message shapes of the google.genai live session, restricted to
    the fields the receive pump reads.  Optional fields mirror the SDK models. -/

namespace types

structure Blob where
  data : Option (List Nat)
deriving Repr

structure Part where
  inline_data : Option Blob
deriving Repr

structure ModelTurn where
  parts : Option (List Part)
deriving Repr

structure Transcription where
  text : Option String
deriving Repr

structure ServerContent where
  model_turn : Option ModelTurn
  input_transcription : Option Transcription
  output_transcription : Option Transcription
  turn_complete : Option Bool
  interrupted : Option Bool
deriving Repr

structure FunctionCall where
  name : Option String
  args : Option Json
  id : Option String
deriving Repr

structure ToolCall where
  function_calls : Option (List FunctionCall)
deriving Repr

structure LiveServerMessage where
  server_content : Option ServerContent
  tool_call : Option ToolCall
deriving Repr

end types

def optStrJson : Option String → Json
  | some s => .str s
  | none => .null

/-- Python `x or {}` applied to an optional dict (gemini_live.py line 262). -/
def pyOrEmptyObj : Option Json → Json
  | some a => if jsonTruthy a then a else Json.obj []
  | none => Json.obj []

/-- The transcription events of gemini_live.py lines 220 to 241. -/
def transcriptEvent (key : String) (t : Option String) : Event :=
  .jsonEvent (Json.obj
    [("serverContent", Json.obj [(key, Json.obj [("text", optStrJson t)])])])

def turnCompleteJsonEvent : Event :=
  .jsonEvent (Json.obj [("serverContent", Json.obj [("turnComplete", Json.bool true)])])

def interruptedJsonEvent : Event :=
  .jsonEvent (Json.obj [("serverContent", Json.obj [("interrupted", Json.bool true)])])

def functionCallJson (fc : types.FunctionCall) : Json :=
  Json.obj
    [("name", optStrJson fc.name),
     ("args", pyOrEmptyObj fc.args),
     ("id", optStrJson fc.id)]

/-- The toolCall event of gemini_live.py lines 256 to 272. -/
def toolCallEvent (fcs : List types.FunctionCall) : Event :=
  .jsonEvent (Json.obj
    [("toolCall", Json.obj [("functionCalls", Json.arr (fcs.map functionCallJson))])])

/-- One audio event per part that carries inline data
(gemini_live.py lines 209 to 217). -/
def audioPartEvents (ps : List types.Part) : List Event :=
  ps.filterMap fun p => p.inline_data.map fun b => Event.audio b.data

/-- Message of the TypeError raised when Python iterates over None. -/
def noneIterError : String := "TypeError: NoneType object is not iterable"

def inputTransEvents (sc : types.ServerContent) : List Event :=
  match sc.input_transcription with
  | some tr => [transcriptEvent "inputTranscription" tr.text]
  | none => []

def outputTransEvents (sc : types.ServerContent) : List Event :=
  match sc.output_transcription with
  | some tr => [transcriptEvent "outputTranscription" tr.text]
  | none => []

def turnCompleteEvents (sc : types.ServerContent) : List Event :=
  match sc.turn_complete with
  | some true => [turnCompleteJsonEvent]
  | _ => []

def interruptedEvents (sc : types.ServerContent) : List Event :=
  match sc.interrupted with
  | some true => [interruptedJsonEvent]
  | _ => []

/-- Events enqueued while processing the server_content part of one upstream
message, with the events already enqueued when an exception interrupts it
(iterating a None parts list raises before any part event). -/
def serverContentEvents (sc : types.ServerContent) : List Event × Option String :=
  let rest :=
    inputTransEvents sc ++ outputTransEvents sc ++
      turnCompleteEvents sc ++ interruptedEvents sc
  match sc.model_turn with
  | some mt =>
    match mt.parts with
    | none => ([], some noneIterError)
    | some ps => (audioPartEvents ps ++ rest, none)
  | none => (rest, none)

/-- Processing of one upstream message by the receive pump
(gemini_live.py lines 203 to 272): events enqueued, in source order, and the
exception (if any) that aborts the iteration. -/
def processMsg (m : types.LiveServerMessage) : List Event × Option String :=
  let scRes : List Event × Option String :=
    match m.server_content with
    | none => ([], none)
    | some sc => serverContentEvents sc
  match scRes.2 with
  | some e => (scRes.1, some e)
  | none =>
    match m.tool_call with
    | none => (scRes.1, none)
    | some tc =>
      match tc.function_calls with
      | none => (scRes.1, some noneIterError)
      | some fcs => (scRes.1 ++ [toolCallEvent fcs], none)

/-- Sequential processing of the messages yielded by one receive() iteration;
an exception aborts the remaining messages. -/
def processMsgs : List types.LiveServerMessage → List Event × Option String
  | [] => ([], none)
  | m :: ms =>
    let r := processMsg m
    match r.2 with
    | some e => (r.1, some e)
    | none =>
      let rest := processMsgs ms
      (r.1 ++ rest.1, rest.2)

/-- How one receive() iteration ends: clean exhaustion of the async iterator
or an exception raised by it. -/
inductive SegEnd
  | clean
  | exc (e : String)
deriving Repr, DecidableEq

/-- Observable outcome of running the receive pump against a finite prefix of
the upstream behaviour: either it reached the terminal sentinel, or it is
still looping after consuming the whole modelled prefix.  The second
component counts the receive() calls the pump made. -/
inductive LoopResult
  | terminated (events : List Event) (receiveCalls : Nat)
  | running (events : List Event) (receiveCalls : Nat)
deriving Repr

/-- The receive pump (gemini_live.py lines 200 to 280): while True, iterate
one receive() call; a clean exhaustion falls back into the while loop and
calls receive() again; any exception enqueues one error event and the finally
block enqueues the None sentinel. -/
def receiveLoopGo :
    List (List types.LiveServerMessage × SegEnd) → List Event → Nat → LoopResult
  | [], acc, n => .running acc n
  | (msgs, segEnd) :: rest, acc, n =>
    let r := processMsgs msgs
    match r.2 with
    | some e => .terminated (acc ++ r.1 ++ [Event.error e, Event.ended]) (n + 1)
    | none =>
      match segEnd with
      | .exc e => .terminated (acc ++ r.1 ++ [Event.error e, Event.ended]) (n + 1)
      | .clean => receiveLoopGo rest (acc ++ r.1) (n + 1)

def receive_loop (segs : List (List types.LiveServerMessage × SegEnd)) : LoopResult :=
  receiveLoopGo segs [] 0

/-- Terminal or error events, the ones the claim about the receive pump says
appear exactly once at the end. -/
def Event.isTerminalOrError : Event → Bool
  | .error _ => true
  | .ended => true
  | _ => false

/-! Ordered per-substructure event lists of one upstream message, used to
    state the detection order of the receive pump. -/

def audioEventsOf (m : types.LiveServerMessage) : List Event :=
  match m.server_content with
  | some sc =>
    match sc.model_turn with
    | some mt =>
      match mt.parts with
      | some ps => audioPartEvents ps
      | none => []
    | none => []
  | none => []

def inputTransEventsOf (m : types.LiveServerMessage) : List Event :=
  match m.server_content with
  | some sc => inputTransEvents sc
  | none => []

def outputTransEventsOf (m : types.LiveServerMessage) : List Event :=
  match m.server_content with
  | some sc => outputTransEvents sc
  | none => []

def turnCompleteEventsOf (m : types.LiveServerMessage) : List Event :=
  match m.server_content with
  | some sc => turnCompleteEvents sc
  | none => []

def interruptedEventsOf (m : types.LiveServerMessage) : List Event :=
  match m.server_content with
  | some sc => interruptedEvents sc
  | none => []

def toolEventsOf (m : types.LiveServerMessage) : List Event :=
  match m.tool_call with
  | some tc =>
    match tc.function_calls with
    | some fcs => [toolCallEvent fcs]
    | none => []
  | none => []

/-! Control-forward pump (gemini_live.py send_text, lines 163 to 197) and the
    queue items the ingress of main.py builds for it (lines 147 to 168). -/

/-- types.FunctionResponse: pydantic model with optional string name and id
and an optional object-valued response. -/
structure FunctionResponse where
  name : Option String
  id : Option String
  response : Option Json
deriving Repr

/-- The generic success marker used when a function response record has no
response payload (gemini_live.py line 189). -/
def defaultResultOk : Json := Json.obj [("result", Json.str "ok")]

/-- One types.FunctionResponse built from one record of the functionResponses
payload (gemini_live.py lines 184 to 192). -/
def mkFunctionResponse (r : Json) : Except PyErr FunctionResponse := do
  let n ← pyGet r "name"
  let i ← pyGet r "id"
  let resp ← pyGetD r "response" defaultResultOk
  let name ← validateOptStr n
  let id ← validateOptStr i
  let response ← validateOptDict resp
  pure { name := name, id := id, response := response }

/-- Items of the text input queue, as main.py receive_from_client builds them
(lines 147 to 168). -/
inductive QueueMsg
  | clientContent (turns : Json) (turnComplete : Json)
  | toolResponse (functionResponses : Option Json)
deriving Repr

/-- Calls the control-forward pump makes on the upstream session handle. -/
inductive UpstreamCall
  | sendContent (input : Json) (end_of_turn : Json)
  | sendToolResult (function_responses : List FunctionResponse)
deriving Repr

/-- One iteration of the control-forward pump (gemini_live.py lines 166 to
195): the upstream call produced for one dequeued message, none when the
message is skipped (a missing functionResponses payload), or the exception a
malformed record raises. -/
def send_text_step (msg : QueueMsg) : Except PyErr (Option UpstreamCall) :=
  match msg with
  | .clientContent turns tc => .ok (some (.sendContent turns tc))
  | .toolResponse fr =>
    match fr with
    | none => .ok none
    | some v => do
      let lst ←
        (match v with
         | Json.obj fs => Except.ok [Json.obj fs]
         | other => pyIter other)
      let frs ← exceptMapList mkFunctionResponse lst
      pure (some (.sendToolResult frs))

/-- Text-frame handling of main.py receive_from_client (lines 143 to 174):
the queue item built from one parsed JSON payload, none for unrecognized
shapes. -/
def receive_from_client_text (payload : Json) : Except PyErr (Option QueueMsg) := do
  let hasCC ← pyContains "clientContent" payload
  if hasCC then do
    let cc ← pyIndexStr payload "clientContent"
    let turns ← pyGetD cc "turns" (Json.str "")
    let tc ← pyGetD cc "turnComplete" (Json.bool false)
    pure (some (.clientContent turns tc))
  else do
    let hasTR ← pyContains "toolResponse" payload
    if hasTR then do
      let tr ← pyIndexStr payload "toolResponse"
      let fr ← pyGet tr "functionResponses"
      pure (some (.toolResponse fr))
    else
      pure none

/-! Egress (main.py run_session, lines 191 to 215) and the start of the
    session (gemini_live.py lines 140 to 295). -/

/-- A frame sent to the client over the websocket. -/
inductive Frame
  | binary (data : Option (List Nat))
  | json (j : Json)
deriving Repr

/-- Serialization of one event by run_session (main.py lines 200 to 215). -/
def serializeEvent : Event → Frame
  | .audio d => .binary d
  | .setupComplete => .json (Json.obj [("setupComplete", Json.bool true)])
  | .error m => .json (Json.obj [("error", Json.str m)])
  | .jsonEvent j => .json j
  | .ended => .json Json.null

/-- The frames run_session sends for a stream of yielded events; the None
sentinel ends the loop before anything is sent for it. -/
def run_session_frames : List Event → List Frame
  | [] => []
  | Event.ended :: _ => []
  | e :: rest => serializeEvent e :: run_session_frames rest

inductive PumpTask
  | send_audio
  | send_text
  | receive
deriving Repr, DecidableEq

/-- The ordered actions start_session performs between opening the upstream
connection and serving the event queue (gemini_live.py lines 143 to 284):
the setup_complete event is enqueued before any pump task is created. -/
inductive InitAction
  | putSetupComplete
  | spawn (t : PumpTask)
deriving Repr, DecidableEq

def startSessionInitActions : List InitAction :=
  [.putSetupComplete, .spawn .send_audio, .spawn .send_text, .spawn .receive]

/-- Queue contents after running the initialization actions: spawning a task
enqueues nothing by itself. -/
def runInitQueue : List InitAction → List Event → List Event
  | [], q => q
  | .putSetupComplete :: rest, q => runInitQueue rest (q ++ [Event.setupComplete])
  | .spawn _ :: rest, q => runInitQueue rest q

def queueAfterInit : List Event := runInitQueue startSessionInitActions []

/-- Events dequeued over the life of the session, in FIFO order: everything
already enqueued during initialization, then whatever the pump tasks enqueue
(the tasks are created after the initial put, so their events sit behind it). -/
def sessionEventStream (taskEvents : List Event) : List Event :=
  queueAfterInit ++ taskEvents

/-! Websocket endpoint of main.py (lines 69 to 235) and the token extraction
    of auth.py (verify_ws_token, lines 159 to 171). -/

structure AuthClaims where
  sub : Option String
deriving Repr

/-- auth.py verify_ws_token: take the token query parameter, fall back to a
bearer authorization header, raise ValueError when both are missing or empty,
then delegate to the Firebase verifier. -/
def verify_ws_token (queryToken : Option String) (authHeader : String)
    (verifyFirebase : String → Except String AuthClaims) : Except String AuthClaims :=
  let t0 : String := queryToken.getD ""
  let t1 : String :=
    if t0 != "" then t0
    else if authHeader.toLower.startsWith "bearer " then authHeader.drop 7
    else ""
  if t1 = "" then .error "Missing auth token" else verifyFirebase t1

def authFailCloseCode : Nat := 4001
def setupFailCloseCode : Nat := 4000
def normalCloseCode : Nat := 1000

/-- What happened when main.py awaited the first text frame (lines 108 to
110): the wait timed out, receive_text raised, or a text frame arrived and
json.loads either parsed it or raised. -/
inductive FirstRecv
  | timeout
  | recvError (e : String)
  | textFrame (parsed : Except String Json)

/-- Outcome of the endpoint prologue: closed during auth with code 4001 and
no handshake, closed during setup with code 4000 and no session (no queues,
no pumps, no upstream connection), or a running session holding the setup
config the handshake extracted. -/
inductive EndpointResult
  | authRejected (closeCode : Nat) (reason : String)
  | setupRejected (closeCode : Nat) (reason : String)
  | sessionRun (setup_config : Option Json)
deriving Repr

/-- A JSON value as stored into a Python variable: null becomes None. -/
def pyNoneCollapse : Json → Option Json
  | Json.null => none
  | v => some v

/-- Setup handshake of main.py lines 107 to 123.  A timeout closes with
Setup timeout; any other exception, including a json.loads failure and a
TypeError from probing a non-dict payload, closes with Invalid setup; a
parsed payload without a setup key falls through with setup_config = None. -/
def setupHandshake (first : FirstRecv) : EndpointResult :=
  match first with
  | .timeout => .setupRejected setupFailCloseCode "Setup timeout"
  | .recvError _ => .setupRejected setupFailCloseCode "Invalid setup"
  | .textFrame (.error _) => .setupRejected setupFailCloseCode "Invalid setup"
  | .textFrame (.ok data) =>
    match (do
      let has ← pyContains "setup" data
      if has then do
        let c ← pyIndexStr data "setup"
        pure (pyNoneCollapse c)
      else
        pure none : Except PyErr (Option Json)) with
    | .error _ => .setupRejected setupFailCloseCode "Invalid setup"
    | .ok sc => .sessionRun sc

/-- The endpoint prologue (main.py lines 92 to 129): a failed verification
accepts the transport only to close it with code 4001, and the handshake
never begins; otherwise the setup handshake decides. -/
def websocketEndpoint (auth : Except String AuthClaims) (first : FirstRecv) :
    EndpointResult :=
  match auth with
  | .error e => .authRejected authFailCloseCode ("Auth failed: " ++ e)
  | .ok _ => setupHandshake first

/-! Supervisor epilogue (main.py lines 217 to 235). -/

inductive RunOutcome
  | completed
  | timedOut
  | failed (e : String)
deriving Repr, DecidableEq

inductive SessionTask
  | ingress
  | audioForward
  | controlForward
  | upstreamReceive
deriving Repr, DecidableEq

/-- Closing the event generator runs its finally block, which cancels the
three inner pump tasks (gemini_live.py lines 292 to 295). -/
def generatorFinallyCancels : List SessionTask :=
  [.audioForward, .controlForward, .upstreamReceive]

def timeLimitMessage : String := "Session time limit reached"

/-- Observable effects of the epilogue: error frames that reached the client,
send attempts made, tasks cancelled, whether close was called on the
transport, and whether the endpoint re-raised. -/
structure TeardownTrace where
  errorFramesSent : List String
  errorSendAttempts : Nat
  cancelledTasks : List SessionTask
  closeCalled : Bool
  closeSucceeded : Bool
  raised : Bool
deriving Repr, DecidableEq

/-- The try/except/finally around the Active phase (main.py lines 217 to
235): a timeout makes one best-effort send of the time limit error (a send
failure is swallowed); any other exception is logged; the finally block
always cancels the ingress task and always calls close, swallowing a close
failure; nothing re-raises. -/
def sessionEpilogue (outcome : RunOutcome) (sendOk : Bool) (closeOk : Bool) :
    TeardownTrace :=
  let handler : List String × Nat :=
    match outcome with
    | .timedOut => ((if sendOk then [timeLimitMessage] else []), 1)
    | .failed _ => ([], 0)
    | .completed => ([], 0)
  { errorFramesSent := handler.1
    errorSendAttempts := handler.2
    cancelledTasks := generatorFinallyCancels ++ [SessionTask.ingress]
    closeCalled := true
    closeSucceeded := closeOk
    raised := false }

/-! Auxiliary definitions used to state the properties. -/

/-- Events emitted by a run of clean receive() iterations, in order. -/
def segmentsEvents : List (List types.LiveServerMessage) → List Event
  | [] => []
  | ms :: rest => (processMsgs ms).1 ++ segmentsEvents rest

/-- Values whose Python iteration yields only strings, the shapes on which
the responseModalities list comprehension cannot raise. -/
def modalityElemsOk (v : Json) : Bool :=
  match v with
  | .arr xs => xs.all fun x => match x with | .str _ => true | _ => false
  | .str _ => true
  | .obj _ => true
  | _ => false

/-- Shape condition on a setup object under which the responseModalities
branch of the translator does not raise. -/
def respModOkShape (fs : List (String × Json)) : Bool :=
  match jsonLookup fs "responseModalities" with
  | none => true
  | some v => modalityElemsOk v

/-- Shape condition under which the contextWindowCompression branch does not
raise: the sub-value, when present, supports Python membership. -/
def cwcOkShape (fs : List (String × Json)) : Bool :=
  match jsonLookup fs "contextWindowCompression" with
  | none => true
  | some (.obj _) => true
  | some (.arr _) => true
  | some (.str _) => true
  | some _ => false

/-- Shape condition under which the systemInstruction branch does not raise:
when the value is an object and the nested extraction succeeds, the
extracted text is a string or null (otherwise pydantic raises). -/
def sysInstrOkShape (fs : List (String × Json)) : Bool :=
  match jsonLookup fs "systemInstruction" with
  | some (Json.obj o) =>
    (match sysChain (Json.obj o) with
     | .ok (Json.str _) => true
     | .ok Json.null => true
     | .ok _ => false
     | .error _ => true)
  | _ => true

/-- Shape condition under which the speechConfig branch does not raise: when
the nested voice-name extraction succeeds, the value is a string or null. -/
def speechOkShape (fs : List (String × Json)) : Bool :=
  match speechChain (Json.obj fs) with
  | .ok (Json.str _) => true
  | .ok Json.null => true
  | .ok _ => false
  | .error _ => true

/-- An upstream message whose processing raises: the tool call is present
but its function_calls list is None, so iterating it raises TypeError
(gemini_live.py line 258). -/
def toolCallNoneMsg : types.LiveServerMessage :=
  { server_content := none, tool_call := some { function_calls := none } }

/-- An upstream message exercising every recognized substructure at once. -/
def fullSampleMsg : types.LiveServerMessage :=
  { server_content := some
      { model_turn := some { parts := some [{ inline_data := some { data := some [1, 2] } }] }
        input_transcription := some { text := some "hi" }
        output_transcription := some { text := some "yo" }
        turn_complete := some true
        interrupted := some true }
    tool_call := some
      { function_calls := some [{ name := some "f", args := some (Json.obj []), id := some "c1" }] } }

/-! Helper lemmas. -/

theorem except_bind_ok {ε α β : Type} {x : Except ε α} {f : α → Except ε β} {b : β}
    (h : x >>= f = Except.ok b) : ∃ a, x = Except.ok a ∧ f a = Except.ok b := by
  cases x with
  | error e => exact absurd h (by simp [Bind.bind, Except.bind])
  | ok a => exact ⟨a, rfl, by simpa [Bind.bind, Except.bind] using h⟩

theorem except_bind_err {ε α β : Type} {x : Except ε α} {f : α → Except ε β} {e : ε}
    (h : x >>= f = Except.error e) :
    x = Except.error e ∨ ∃ a, x = Except.ok a ∧ f a = Except.error e := by
  cases x with
  | error e2 =>
    left
    simp only [Bind.bind, Except.bind] at h
    injection h with h2
    rw [h2]
  | ok a => exact Or.inr ⟨a, rfl, by simpa [Bind.bind, Except.bind] using h⟩

theorem pyIndexStr_error_kinds (j : Json) (k : String) (e : PyErr)
    (h : pyIndexStr j k = .error e) : e = .keyError ∨ e = .typeError := by
  cases j with
  | obj fs =>
    simp only [pyIndexStr] at h
    rcases hk : jsonLookup fs k with _ | v <;> rw [hk] at h <;> simp_all
  | null => simp [pyIndexStr] at h; simp [h]
  | bool b => simp [pyIndexStr] at h; simp [h]
  | num n => simp [pyIndexStr] at h; simp [h]
  | str s => simp [pyIndexStr] at h; simp [h]
  | arr xs => simp [pyIndexStr] at h; simp [h]

theorem pyIndexNat0_error_kinds (j : Json) (e : PyErr)
    (h : pyIndexNat0 j = .error e) : e = .keyError ∨ e = .indexError ∨ e = .typeError := by
  cases j with
  | arr xs => cases xs <;> simp_all [pyIndexNat0]
  | str s =>
    simp only [pyIndexNat0] at h
    rcases hc : s.data with _ | ⟨c, cs⟩ <;> rw [hc] at h <;> simp_all
  | obj fs => simp [pyIndexNat0] at h; simp [h]
  | null => simp [pyIndexNat0] at h; simp [h]
  | bool b => simp [pyIndexNat0] at h; simp [h]
  | num n => simp [pyIndexNat0] at h; simp [h]

theorem sysChain_error_kinds (t : Json) (e : PyErr) (h : sysChain t = .error e) :
    e = .keyError ∨ e = .indexError ∨ e = .typeError := by
  unfold sysChain at h
  rcases except_bind_err h with h1 | ⟨p, hp, h2⟩
  · rcases pyIndexStr_error_kinds _ _ _ h1 with h' | h'
    · exact Or.inl h'
    · exact Or.inr (Or.inr h')
  · rcases except_bind_err h2 with h3 | ⟨p0, hp0, h4⟩
    · exact pyIndexNat0_error_kinds _ _ h3
    · rcases pyIndexStr_error_kinds _ _ _ h4 with h' | h'
      · exact Or.inl h'
      · exact Or.inr (Or.inr h')

theorem speechChain_error_kinds (sc : Json) (e : PyErr) (h : speechChain sc = .error e) :
    e = .keyError ∨ e = .typeError := by
  unfold speechChain at h
  rcases except_bind_err h with h1 | ⟨a, ha, h2⟩
  · exact pyIndexStr_error_kinds _ _ _ h1
  · rcases except_bind_err h2 with h3 | ⟨b, hb, h4⟩
    · exact pyIndexStr_error_kinds _ _ _ h3
    · rcases except_bind_err h4 with h5 | ⟨c, hc, h6⟩
      · exact pyIndexStr_error_kinds _ _ _ h5
      · exact pyIndexStr_error_kinds _ _ _ h6

theorem exceptMapList_modality_ok (xs : List Json)
    (h : (xs.all fun x => match x with | Json.str _ => true | _ => false) = true) :
    ∃ ms, exceptMapList Modality.ofJson xs = Except.ok ms := by
  induction xs with
  | nil => exact ⟨[], rfl⟩
  | cons x xs ih =>
    rw [List.all_cons, Bool.and_eq_true] at h
    obtain ⟨ms, hms⟩ := ih h.2
    rcases x with _ | b | n | s | a | o <;> simp_all [exceptMapList, Modality.ofJson,
      Bind.bind, Except.bind, pure, Except.pure]

theorem all_str_map {α : Type} (f : α → String) (l : List α) :
    ((l.map fun a => Json.str (f a)).all fun x =>
      match x with | Json.str _ => true | _ => false) = true := by
  induction l with
  | nil => rfl
  | cons a l ih => simp [ih]

theorem pyIter_all_str (v : Json) (hv : modalityElemsOk v = true) :
    ∃ items, pyIter v = .ok items
      ∧ (items.all fun x => match x with | Json.str _ => true | _ => false) = true := by
  rcases v with _ | b | n | s | a | o
  · simp [modalityElemsOk] at hv
  · simp [modalityElemsOk] at hv
  · simp [modalityElemsOk] at hv
  · exact ⟨_, rfl, all_str_map (fun c => String.mk [c]) s.data⟩
  · exact ⟨a, rfl, by simpa [modalityElemsOk] using hv⟩
  · exact ⟨_, rfl, all_str_map (fun p => p.1) o⟩

theorem respModalitiesField_ok (fs : List (String × Json))
    (h : respModOkShape fs = true) :
    ∃ rm, respModalitiesField (Json.obj fs) = .ok rm := by
  unfold respModOkShape at h
  rcases hk : jsonLookup fs "responseModalities" with _ | v <;> rw [hk] at h
  · exact ⟨none, by simp [respModalitiesField, pyContains, hk, Bind.bind, Except.bind,
      pure, Except.pure]⟩
  · obtain ⟨items, hitems, hall⟩ := pyIter_all_str v h
    obtain ⟨ms, hms⟩ := exceptMapList_modality_ok items hall
    refine ⟨some ms, ?_⟩
    simp [respModalitiesField, pyContains, pyIndexStr, hk, hitems, hms, Bind.bind,
      Except.bind, pure, Except.pure]

theorem sysInstrField_ok (fs : List (String × Json)) (h : sysInstrOkShape fs = true) :
    ∃ si, sysInstrField (Json.obj fs) = .ok si := by
  unfold sysInstrOkShape at h
  rcases hk : jsonLookup fs "systemInstruction" with _ | v <;> rw [hk] at h
  · exact ⟨none, by simp [sysInstrField, pyContains, hk, Bind.bind, Except.bind, pure,
      Except.pure]⟩
  · rcases v with _ | b | n | s | a | o
  
    · exact ⟨none, by simp [sysInstrField, pyContains, pyIndexStr, hk, Bind.bind,
        Except.bind, pure, Except.pure]⟩
    · exact ⟨none, by simp [sysInstrField, pyContains, pyIndexStr, hk, Bind.bind,
        Except.bind, pure, Except.pure]⟩
    · exact ⟨none, by simp [sysInstrField, pyContains, pyIndexStr, hk, Bind.bind,
        Except.bind, pure, Except.pure]⟩
    · exact ⟨some (some s), by simp [sysInstrField, pyContains, pyIndexStr, hk,
        Bind.bind, Except.bind, pure, Except.pure]⟩
    · exact ⟨none, by simp [sysInstrField, pyContains, pyIndexStr, hk, Bind.bind,
        Except.bind, pure, Except.pure]⟩
    · have h2 : (match sysChain (Json.obj o) with
          | .ok (Json.str _) => true
          | .ok Json.null => true
          | .ok _ => false
          | .error _ => true) = true := h
      rcases hc : sysChain (Json.obj o) with e | t
      · rcases sysChain_error_kinds _ _ hc with he | he | he <;> subst he <;>
          exact ⟨none, by simp [sysInstrField, pyContains, pyIndexStr, hk, hc, Bind.bind,
            Except.bind, pure, Except.pure, Functor.map, Except.map]⟩
      · rw [hc] at h2
        rcases t with _ | b2 | n2 | s2 | a2 | o2
        · exact ⟨some none, by simp [sysInstrField, pyContains, pyIndexStr, hk, hc,
            partTextValidate, Bind.bind, Except.bind, pure, Except.pure, Functor.map,
            Except.map]⟩
        · simp at h2
        · simp at h2
        · exact ⟨some (some s2), by simp [sysInstrField, pyContains, pyIndexStr, hk, hc,
            partTextValidate, Bind.bind, Except.bind, pure, Except.pure, Functor.map,
            Except.map]⟩
        · simp at h2
        · simp at h2

theorem toolsField_ok (fs : List (String × Json)) :
    ∃ t, toolsField (Json.obj fs) = .ok t := by
  rcases hk : jsonLookup fs "tools" with _ | v
  · exact ⟨none, by simp [toolsField, pyContains, hk, Bind.bind, Except.bind, pure,
      Except.pure]⟩
  · rcases v with _ | b | n | s | a | o
    · exact ⟨none, by simp [toolsField, pyContains, pyIndexStr, hk, Bind.bind,
        Except.bind, pure, Except.pure]⟩
    · exact ⟨none, by simp [toolsField, pyContains, pyIndexStr, hk, Bind.bind,
        Except.bind, pure, Except.pure]⟩
    · exact ⟨none, by simp [toolsField, pyContains, pyIndexStr, hk, Bind.bind,
        Except.bind, pure, Except.pure]⟩
    · exact ⟨none, by simp [toolsField, pyContains, pyIndexStr, hk, Bind.bind,
        Except.bind, pure, Except.pure]⟩
    · exact ⟨toolsLoop a none, by simp [toolsField, pyContains, pyIndexStr, hk,
        Bind.bind, Except.bind, pure, Except.pure]⟩
    · exact ⟨none, by simp [toolsField, pyContains, pyIndexStr, hk, Bind.bind,
        Except.bind, pure, Except.pure]⟩

theorem cwcField_ok (fs : List (String × Json)) (h : cwcOkShape fs = true) :
    ∃ cw, cwcField (Json.obj fs) = .ok cw := by
  unfold cwcOkShape at h
  rcases hk : jsonLookup fs "contextWindowCompression" with _ | v <;> rw [hk] at h
  · exact ⟨false, by simp [cwcField, pyContains, hk, Bind.bind, Except.bind, pure,
      Except.pure]⟩
  · rcases v with _ | b | n | s | a | o
    · simp at h
    · simp at h
    · simp at h
    · exact ⟨strContainsSub s "slidingWindow", by simp [cwcField, pyContains, pyIndexStr,
        hk, Bind.bind, Except.bind, pure, Except.pure]⟩
    · exact ⟨(a.any fun x => match x with | Json.str s => s == "slidingWindow" | _ => false),
        by simp [cwcField, pyContains, pyIndexStr, hk, Bind.bind, Except.bind, pure,
          Except.pure]⟩
    · exact ⟨(jsonLookup o "slidingWindow").isSome, by simp [cwcField, pyContains,
        pyIndexStr, hk, Bind.bind, Except.bind, pure, Except.pure]⟩

theorem speechField_ok (fs : List (String × Json)) (h : speechOkShape fs = true) :
    ∃ sp, speechField (Json.obj fs) = .ok sp := by
  unfold speechOkShape at h
  rcases hk : jsonLookup fs "speechConfig" with _ | v
  · exact ⟨none, by simp [speechField, pyContains, hk, Bind.bind, Except.bind, pure,
      Except.pure]⟩
  · rcases hc : speechChain (Json.obj fs) with e | t <;> rw [hc] at h
    · rcases speechChain_error_kinds _ _ hc with he | he <;> subst he <;>
        exact ⟨none, by simp [speechField, pyContains, hk, hc, Bind.bind, Except.bind,
          pure, Except.pure, Functor.map, Except.map]⟩
    · rcases t with _ | b2 | n2 | s2 | a2 | o2
      · exact ⟨some none, by simp [speechField, pyContains, hk, hc, partTextValidate,
          Bind.bind, Except.bind, pure, Except.pure, Functor.map, Except.map]⟩
      · simp at h
      · simp at h
      · exact ⟨some (some s2), by simp [speechField, pyContains, hk, hc,
          partTextValidate, Bind.bind, Except.bind, pure, Except.pure, Functor.map,
          Except.map]⟩
      · simp at h
      · simp at h

/-! Claim C1: totality of the session configuration translator. -/

/-- C1 counterexample: the claim says building the upstream configuration
never raises for any JSON setup object, every malformed sub-field being
skipped.  The well-formed object with contextWindowCompression set to the
number 5 refutes it: the unguarded membership test slidingWindow in 5 raises
TypeError (gemini_live.py line 103), aborting the whole setup. -/
theorem c1_counterexample :
    configArgsOfSetup (some (Json.obj [("contextWindowCompression", Json.num 5)]))
      = .error PyErr.typeError := rfl

/-- C1 (amended): the translator never raises on a setup object provided
that the responseModalities value, when present, iterates to strings only,
the contextWindowCompression value supports membership, and the extracted
systemInstruction text and speechConfig voice name, when their nested
extraction succeeds, are strings or null; under those conditions every other
malformed sub-field (tools included) is skipped individually and the
recognized transcription flags still appear in the result. -/
theorem c1_translator_total (fs : List (String × Json))
    (h1 : respModOkShape fs = true) (h2 : sysInstrOkShape fs = true)
    (h3 : cwcOkShape fs = true) (h4 : speechOkShape fs = true) :
    ∃ cfg, configArgsOfSetup (some (Json.obj fs)) = .ok cfg
      ∧ cfg.output_audio_transcription = (jsonLookup fs "outputAudioTranscription").isSome
      ∧ cfg.input_audio_transcription = (jsonLookup fs "inputAudioTranscription").isSome := by
  cases fs with
  | nil => exact ⟨defaultConfigArgs, rfl, rfl, rfl⟩
  | cons p fs' =>
    obtain ⟨rm, hrm⟩ := respModalitiesField_ok _ h1
    obtain ⟨si, hsi⟩ := sysInstrField_ok _ h2
    obtain ⟨tl, htl⟩ := toolsField_ok (p :: fs')
    obtain ⟨cw, hcw⟩ := cwcField_ok _ h3
    obtain ⟨sp, hsp⟩ := speechField_ok _ h4
    refine ⟨{ response_modalities := rm.getD [Modality.audio], system_instruction := si,
              tools := tl, context_window_compression := cw,
              output_audio_transcription :=
                (jsonLookup (p :: fs') "outputAudioTranscription").isSome,
              input_audio_transcription :=
                (jsonLookup (p :: fs') "inputAudioTranscription").isSome,
              speech_config := sp }, ?_, rfl, rfl⟩
    simp [configArgsOfSetup, jsonTruthy, hrm, hsi, htl, hcw, hsp, pyContains,
      Bind.bind, Except.bind, pure, Except.pure]

/-- C1 witness: a setup whose tools field is the malformed number 5 still
translates, the malformed field is skipped, and the transcription flag it
carries is honored. -/
theorem c1_translator_total_witness :
    ∃ cfg, configArgsOfSetup (some (Json.obj
        [("tools", Json.num 5), ("outputAudioTranscription", Json.obj [])]))
        = .ok cfg
      ∧ cfg.output_audio_transcription = true
      ∧ cfg.input_audio_transcription = false :=
  c1_translator_total
    [("tools", Json.num 5), ("outputAudioTranscription", Json.obj [])]
    rfl rfl rfl rfl

/-! Claim C2: terminal behaviour of the upstream receive pump. -/

theorem audioPartEvents_not_terminal (ps : List types.Part) :
    ((audioPartEvents ps).all fun ev => !ev.isTerminalOrError) = true := by
  induction ps with
  | nil => rfl
  | cons p ps ih =>
    rcases hp : p.inline_data with _ | b <;>
      simp_all [audioPartEvents, List.filterMap_cons, hp, Event.isTerminalOrError]

theorem serverContentRest_not_terminal (mt : Option types.ModelTurn)
    (it ot : Option types.Transcription) (tcf ir : Option Bool) :
    ((inputTransEvents ⟨mt, it, ot, tcf, ir⟩ ++ outputTransEvents ⟨mt, it, ot, tcf, ir⟩
        ++ turnCompleteEvents ⟨mt, it, ot, tcf, ir⟩
        ++ interruptedEvents ⟨mt, it, ot, tcf, ir⟩).all
      fun ev => !ev.isTerminalOrError) = true := by
  rcases it with _ | t1 <;> rcases ot with _ | t2 <;>
    rcases tcf with _ | b1 <;> rcases ir with _ | b2 <;>
    all_goals try cases b1
  all_goals try cases b2
  all_goals
    simp [inputTransEvents, outputTransEvents, turnCompleteEvents, interruptedEvents,
      transcriptEvent, turnCompleteJsonEvent, interruptedJsonEvent,
      Event.isTerminalOrError]

theorem processMsg_not_terminal (m : types.LiveServerMessage) :
    ((processMsg m).1.all fun ev => !ev.isTerminalOrError) = true := by
  obtain ⟨sc, tc⟩ := m
  rcases sc with _ | ⟨mt, it, ot, tcf, ir⟩
  · rcases tc with _ | ⟨fcs⟩
    · rfl
    · rcases fcs with _ | fcs'
      · rfl
      · rfl
  · have hrest := serverContentRest_not_terminal mt it ot tcf ir
    simp only [List.all_append, Bool.and_eq_true] at hrest
    rcases mt with _ | ⟨parts⟩
    · rcases tc with _ | ⟨fcs⟩
      · simp only [processMsg, serverContentEvents, List.all_append, Bool.and_eq_true]
        exact hrest
      · rcases fcs with _ | fcs'
        · simp only [processMsg, serverContentEvents, List.all_append, Bool.and_eq_true]
          exact hrest
        · simp only [processMsg, serverContentEvents, List.all_append, Bool.and_eq_true]
          exact ⟨hrest, rfl⟩
    · rcases parts with _ | ⟨ps⟩
      · rfl
      · have h1 := audioPartEvents_not_terminal ps
        rcases tc with _ | ⟨fcs⟩
        · simp only [processMsg, serverContentEvents, List.all_append, Bool.and_eq_true]
          exact ⟨h1, hrest⟩
        · rcases fcs with _ | fcs'
          · simp only [processMsg, serverContentEvents, List.all_append, Bool.and_eq_true]
            exact ⟨h1, hrest⟩
          · simp only [processMsg, serverContentEvents, List.all_append, Bool.and_eq_true]
            exact ⟨⟨h1, hrest⟩, rfl⟩

theorem processMsgs_not_terminal (ms : List types.LiveServerMessage) :
    ((processMsgs ms).1.all fun ev => !ev.isTerminalOrError) = true := by
  induction ms with
  | nil => rfl
  | cons m ms ih =>
    have h := processMsg_not_terminal m
    rcases he : (processMsg m).2 with _ | e <;>
      simp_all [processMsgs, he, List.all_append]

theorem segmentsEvents_not_terminal (pre : List (List types.LiveServerMessage)) :
    ((segmentsEvents pre).all fun ev => !ev.isTerminalOrError) = true := by
  induction pre with
  | nil => rfl
  | cons ms pre ih =>
    simp_all [segmentsEvents, List.all_append, processMsgs_not_terminal]

theorem receiveLoopGo_cleans (pre : List (List types.LiveServerMessage))
    (h : ∀ ms ∈ pre, (processMsgs ms).2 = none)
    (rest : List (List types.LiveServerMessage × SegEnd)) (acc : List Event) (n : Nat) :
    receiveLoopGo ((pre.map fun ms => (ms, SegEnd.clean)) ++ rest) acc n
      = receiveLoopGo rest (acc ++ segmentsEvents pre) (n + pre.length) := by
  induction pre generalizing acc n with
  | nil => simp [segmentsEvents]
  | cons ms pre ih =>
    have hms : (processMsgs ms).2 = none := h ms (List.mem_cons_self ms pre)
    have hpre : ∀ x ∈ pre, (processMsgs x).2 = none :=
      fun x hx => h x (List.mem_cons_of_mem ms hx)
    simp only [List.map_cons, List.cons_append, receiveLoopGo, hms, segmentsEvents]
    have hgoal : receiveLoopGo ((List.map (fun ms => (ms, SegEnd.clean)) pre) ++ rest)
          (acc ++ (processMsgs ms).1) (n + 1)
        = receiveLoopGo rest (acc ++ ((processMsgs ms).1 ++ segmentsEvents pre))
            (n + (pre.length + 1)) := by
      rw [ih hpre]
      have hn : n + 1 + pre.length = n + (pre.length + 1) := by omega
      rw [hn, List.append_assoc]
    exact hgoal

/-- C2 counterexample: the claim says a cleanly exhausted upstream stream
makes the pump emit exactly one terminal SessionEnded event, stop, and never
re-open iteration.  Against an upstream whose receive() iterations exhaust
cleanly twice, the pump emits nothing, makes a second receive() call after
the first clean exhaustion, and is still looping. -/
theorem c2_counterexample :
    receive_loop [([], SegEnd.clean), ([], SegEnd.clean)] = LoopResult.running [] 2
    ∧ ¬ receive_loop [([], SegEnd.clean), ([], SegEnd.clean)]
        = LoopResult.terminated [Event.ended] 1 := by
  refine ⟨rfl, ?_⟩
  intro hr
  have h0 : receive_loop [([], SegEnd.clean), ([], SegEnd.clean)]
      = LoopResult.running [] 2 := rfl
  rw [h0] at hr
  exact LoopResult.noConfusion hr

/-- C2 (amended): when any exception is raised, either by a receive()
iteration (the stream itself raises after its clean messages) or while
processing one of its messages (the exception aborts the iteration whatever
its declared ending would have been, keeping the events already enqueued
before the raise), the pump emits exactly one Error event followed by the
terminal sentinel and stops, after clean exhaustions merely re-opened
iteration; when every modelled iteration exhausts cleanly the pump emits no
terminal event at all and keeps calling receive(), once per iteration; and
none of the ordinary events preceding the terminal pair is itself an error
or the sentinel. -/
theorem c2_receive_pump (pre : List (List types.LiveServerMessage))
    (msgs : List types.LiveServerMessage) (e : String) (segEnd : SegEnd)
    (hpre : ∀ ms ∈ pre, (processMsgs ms).2 = none) :
    ((processMsgs msgs).2 = none →
      receive_loop ((pre.map fun ms => (ms, SegEnd.clean)) ++ [(msgs, SegEnd.exc e)])
        = .terminated
            (segmentsEvents pre ++ (processMsgs msgs).1 ++ [Event.error e, Event.ended])
            (pre.length + 1))
    ∧ ((processMsgs msgs).2 = some e →
      receive_loop ((pre.map fun ms => (ms, SegEnd.clean)) ++ [(msgs, segEnd)])
        = .terminated
            (segmentsEvents pre ++ (processMsgs msgs).1 ++ [Event.error e, Event.ended])
            (pre.length + 1))
    ∧ receive_loop (pre.map fun ms => (ms, SegEnd.clean))
        = .running (segmentsEvents pre) pre.length
    ∧ ((segmentsEvents pre ++ (processMsgs msgs).1).all
        fun ev => !ev.isTerminalOrError) = true := by
  refine ⟨?_, ?_, ?_, ?_⟩
  · intro hmsgs
    unfold receive_loop
    rw [receiveLoopGo_cleans pre hpre [(msgs, SegEnd.exc e)] [] 0]
    simp [receiveLoopGo, hmsgs, List.append_assoc]
  · intro hmsgs
    unfold receive_loop
    rw [receiveLoopGo_cleans pre hpre [(msgs, segEnd)] [] 0]
    simp [receiveLoopGo, hmsgs, List.append_assoc]
  · unfold receive_loop
    have h := receiveLoopGo_cleans pre hpre [] [] 0
    simpa using h
  · simp [List.all_append, segmentsEvents_not_terminal, processMsgs_not_terminal]

/-- C2 witness: one empty clean iteration followed by an iteration whose
only message raises while being processed (a tool call with a None
function_calls list) gives exactly one error event and the sentinel after
two receive() calls, even though that iteration would have ended cleanly;
the all-clean prefix alone leaves the pump running with no terminal event. -/
theorem c2_receive_pump_witness :
    receive_loop [([], SegEnd.clean), ([toolCallNoneMsg], SegEnd.clean)]
        = .terminated [Event.error noneIterError, Event.ended] 2
    ∧ receive_loop [([], SegEnd.clean)] = .running [] 1
    ∧ (([] : List Event).all fun ev => !ev.isTerminalOrError) = true :=
  have h := c2_receive_pump [[]] [toolCallNoneMsg] noneIterError SegEnd.clean
    (fun ms hm => by
      rw [List.mem_singleton] at hm
      subst hm
      rfl)
  ⟨h.2.1 rfl, h.2.2.1, h.2.2.2⟩

/-! Claim C3: setup handshake outcomes. -/

/-- C3 counterexample: the claim says a first text frame missing the setup
object closes the connection with the setup close code and creates no
session.  A valid JSON frame without a setup key refutes it: main.py only
logs a warning and proceeds to create the session with a null setup config
(lines 114 to 115 never close), so the endpoint reaches the session phase. -/
theorem c3_counterexample :
    websocketEndpoint (.ok { sub := some "u" })
        (FirstRecv.textFrame (.ok (Json.obj [("hello", Json.num 1)])))
      = EndpointResult.sessionRun none
    ∧ ¬ ∃ reason, websocketEndpoint (.ok { sub := some "u" })
        (FirstRecv.textFrame (.ok (Json.obj [("hello", Json.num 1)])))
          = EndpointResult.setupRejected setupFailCloseCode reason := by
  refine ⟨rfl, ?_⟩
  rintro ⟨r, hr⟩
  have h0 : websocketEndpoint (.ok { sub := some "u" })
      (FirstRecv.textFrame (.ok (Json.obj [("hello", Json.num 1)])))
      = EndpointResult.sessionRun none := rfl
  rw [h0] at hr
  exact EndpointResult.noConfusion hr

/-- C3 (amended): a timeout closes with code 4000 and reason Setup timeout;
a receive failure or unparsable first frame closes with code 4000 and reason
Invalid setup; a parsed frame carrying a setup key proceeds to the session
with that value (null collapsing to an absent config); a parsed object frame
missing the setup key also proceeds to the session, with no config, instead
of closing. -/
theorem c3_setup_handshake (c : AuthClaims) (e : String)
    (fs : List (String × Json)) (v : Json) :
    websocketEndpoint (.ok c) FirstRecv.timeout
        = .setupRejected setupFailCloseCode "Setup timeout"
    ∧ websocketEndpoint (.ok c) (FirstRecv.recvError e)
        = .setupRejected setupFailCloseCode "Invalid setup"
    ∧ websocketEndpoint (.ok c) (FirstRecv.textFrame (.error e))
        = .setupRejected setupFailCloseCode "Invalid setup"
    ∧ (jsonLookup fs "setup" = some v →
        websocketEndpoint (.ok c) (FirstRecv.textFrame (.ok (Json.obj fs)))
          = .sessionRun (pyNoneCollapse v))
    ∧ (jsonLookup fs "setup" = none →
        websocketEndpoint (.ok c) (FirstRecv.textFrame (.ok (Json.obj fs)))
          = .sessionRun none) := by
  refine ⟨rfl, rfl, rfl, ?_, ?_⟩
  · intro h
    simp [websocketEndpoint, setupHandshake, pyContains, pyIndexStr, h, Bind.bind,
      Except.bind, pure, Except.pure]
  · intro h
    simp [websocketEndpoint, setupHandshake, pyContains, pyIndexStr, h, Bind.bind,
      Except.bind, pure, Except.pure]

/-- C3 witness: a frame carrying a setup object reaches the session phase
with that object as the frozen config. -/
theorem c3_setup_handshake_witness :
    websocketEndpoint (.ok { sub := some "u" })
        (FirstRecv.textFrame (.ok (Json.obj [("setup", Json.obj [("a", Json.num 1)])])))
      = .sessionRun (some (Json.obj [("a", Json.num 1)])) :=
  (c3_setup_handshake { sub := some "u" } "" [("setup", Json.obj [("a", Json.num 1)])]
    (Json.obj [("a", Json.num 1)])).2.2.2.1 rfl

/-! Claim C4: deadline expiry teardown. -/

/-- C4: when the wall-clock deadline expires (asyncio.TimeoutError from
wait_for), exactly one send of the time limit error is attempted, it is
delivered only when the transport still accepts it and a failure is
swallowed, nothing re-raises, and teardown runs unconditionally: the ingress
task is cancelled, the generator finally block cancels the three pump tasks,
and close is called on the transport whatever its outcome. -/
theorem c4_deadline_teardown (sendOk closeOk : Bool) :
    (sessionEpilogue RunOutcome.timedOut sendOk closeOk).errorSendAttempts = 1
    ∧ (sessionEpilogue RunOutcome.timedOut sendOk closeOk).errorFramesSent
        = (if sendOk then [timeLimitMessage] else [])
    ∧ (sessionEpilogue RunOutcome.timedOut sendOk closeOk).raised = false
    ∧ (sessionEpilogue RunOutcome.timedOut sendOk closeOk).cancelledTasks
        = [SessionTask.audioForward, SessionTask.controlForward,
           SessionTask.upstreamReceive, SessionTask.ingress]
    ∧ (sessionEpilogue RunOutcome.timedOut sendOk closeOk).closeCalled = true :=
  ⟨rfl, rfl, rfl, rfl, rfl⟩

/-! Claim C6: auth failure closes before the handshake. -/

/-- C6: whenever token verification fails, whatever the first frame would
have been, the endpoint accepts the transport only to close it with the auth
close code 4001 and the failure reason; the distinguished code differs from
the setup close code and from normal closure, and the authRejected outcome
carries no session, queue, pump or upstream handle by construction. -/
theorem c6_auth_rejected (q : Option String) (hdr : String)
    (vf : String → Except String AuthClaims) (e : String) (first : FirstRecv)
    (h : verify_ws_token q hdr vf = .error e) :
    websocketEndpoint (verify_ws_token q hdr vf) first
        = .authRejected authFailCloseCode ("Auth failed: " ++ e)
    ∧ authFailCloseCode ≠ setupFailCloseCode
    ∧ authFailCloseCode ≠ normalCloseCode := by
  refine ⟨?_, by decide, by decide⟩
  rw [h]
  rfl

/-- C6 witness: a connection whose query token the verifier rejects is
closed with code 4001 before any handshake step. -/
theorem c6_auth_rejected_witness :
    websocketEndpoint (verify_ws_token (some "tok") "" fun _ => Except.error "bad")
        FirstRecv.timeout
      = .authRejected authFailCloseCode ("Auth failed: " ++ "bad")
    ∧ authFailCloseCode ≠ setupFailCloseCode
    ∧ authFailCloseCode ≠ normalCloseCode :=
  c6_auth_rejected (some "tok") "" (fun _ => Except.error "bad") "bad"
    FirstRecv.timeout (by rfl)

/-! Claim C7: single tool-response object versus one-element list. -/

/-- C7: a ToolResponse whose functionResponses payload is a single JSON
object makes the control-forward pump produce exactly the same upstream
function-result call as the one-element list holding that object
(gemini_live.py lines 180 to 181 wrap the dict in a list). -/
theorem c7_single_object_normalizes (fields : List (String × Json)) :
    send_text_step (QueueMsg.toolResponse (some (Json.obj fields)))
      = send_text_step (QueueMsg.toolResponse (some (Json.arr [Json.obj fields]))) := rfl

/-! Claim C9: the setup-complete event precedes everything. -/

/-- C9: the setup_complete event is enqueued before the three pump tasks are
created, so whatever events those tasks later enqueue, the first event out
of the queue is setup_complete and the first frame the egress sends is the
setupComplete JSON message; the first recorded initialization action is the
enqueue itself. -/
theorem c9_setup_complete_first (taskEvents : List Event) :
    (sessionEventStream taskEvents).head? = some Event.setupComplete
    ∧ (run_session_frames (sessionEventStream taskEvents)).head?
        = some (Frame.json (Json.obj [("setupComplete", Json.bool true)]))
    ∧ startSessionInitActions.head? = some InitAction.putSetupComplete :=
  ⟨rfl, rfl, rfl⟩

/-! Claim C5: fixed detection order of the receive pump. -/

/-- C5: for one upstream message whose processing raises nothing, the events
enqueued are exactly, in order, the audio events (one per model part with
inline data), then the input transcription, then the output transcription,
then turn-complete, then interruption, then the tool call; a message without
server content produces none of the five content events, and a message
without a tool call produces no tool event. -/
theorem c5_detection_order (m : types.LiveServerMessage)
    (h : (processMsg m).2 = none) :
    (processMsg m).1
        = audioEventsOf m ++ inputTransEventsOf m ++ outputTransEventsOf m
            ++ turnCompleteEventsOf m ++ interruptedEventsOf m ++ toolEventsOf m
    ∧ (m.server_content = none →
        audioEventsOf m = [] ∧ inputTransEventsOf m = [] ∧ outputTransEventsOf m = []
          ∧ turnCompleteEventsOf m = [] ∧ interruptedEventsOf m = [])
    ∧ (m.tool_call = none → toolEventsOf m = []) := by
  obtain ⟨sc, tc⟩ := m
  refine ⟨?_, ?_, ?_⟩
  · rcases sc with _ | ⟨mt, it, ot, tcf, ir⟩
    · rcases tc with _ | ⟨fcs⟩
      · rfl
      · rcases fcs with _ | fcs'
        · exact absurd h (by simp [processMsg])
        · simp [processMsg, audioEventsOf, inputTransEventsOf, outputTransEventsOf,
            turnCompleteEventsOf, interruptedEventsOf, toolEventsOf]
    · rcases mt with _ | ⟨parts⟩
      · rcases tc with _ | ⟨fcs⟩
        · simp [processMsg, serverContentEvents, audioEventsOf, inputTransEventsOf,
            outputTransEventsOf, turnCompleteEventsOf, interruptedEventsOf, toolEventsOf,
            List.append_assoc]
        · rcases fcs with _ | fcs'
          · exact absurd h (by simp [processMsg, serverContentEvents])
          · simp [processMsg, serverContentEvents, audioEventsOf, inputTransEventsOf,
              outputTransEventsOf, turnCompleteEventsOf, interruptedEventsOf, toolEventsOf,
              List.append_assoc]
      · rcases parts with _ | ⟨ps⟩
        · exact absurd h (by simp [processMsg, serverContentEvents])
        · rcases tc with _ | ⟨fcs⟩
          · simp [processMsg, serverContentEvents, audioEventsOf, inputTransEventsOf,
              outputTransEventsOf, turnCompleteEventsOf, interruptedEventsOf, toolEventsOf,
              List.append_assoc]
          · rcases fcs with _ | fcs'
            · exact absurd h (by simp [processMsg, serverContentEvents])
            · simp [processMsg, serverContentEvents, audioEventsOf, inputTransEventsOf,
                outputTransEventsOf, turnCompleteEventsOf, interruptedEventsOf,
                toolEventsOf, List.append_assoc]
  · intro hsc
    rw [show sc = none from hsc]
    exact ⟨rfl, rfl, rfl, rfl, rfl⟩
  · intro htc
    rw [show tc = none from htc]
    rfl

/-- C5 witness: a message exercising all six substructures at once processes
without error and yields the six event groups in the stated order. -/
theorem c5_detection_order_witness :
    (processMsg fullSampleMsg).2 = none
    ∧ ((processMsg fullSampleMsg).1
          = audioEventsOf fullSampleMsg ++ inputTransEventsOf fullSampleMsg
              ++ outputTransEventsOf fullSampleMsg ++ turnCompleteEventsOf fullSampleMsg
              ++ interruptedEventsOf fullSampleMsg ++ toolEventsOf fullSampleMsg
        ∧ (fullSampleMsg.server_content = none →
            audioEventsOf fullSampleMsg = [] ∧ inputTransEventsOf fullSampleMsg = []
              ∧ outputTransEventsOf fullSampleMsg = []
              ∧ turnCompleteEventsOf fullSampleMsg = []
              ∧ interruptedEventsOf fullSampleMsg = [])
        ∧ (fullSampleMsg.tool_call = none → toolEventsOf fullSampleMsg = [])) :=
  ⟨rfl, c5_detection_order fullSampleMsg rfl⟩

/-! Claim C8: defaulting of the function-response payload. -/

/-- C8: in every function-response record that the control-forward pump
successfully turns into an upstream record, an absent response payload is
replaced by the generic success marker, a null payload becomes None, and a
present object payload is forwarded unchanged. -/
theorem c8_function_response_payload (fields : List (String × Json))
    (fr : FunctionResponse)
    (h : mkFunctionResponse (Json.obj fields) = .ok fr) :
    fr.response = (match jsonLookup fields "response" with
      | none => some defaultResultOk
      | some Json.null => none
      | some v => some v) := by
  unfold mkFunctionResponse at h
  obtain ⟨n, hn, h⟩ := except_bind_ok h
  obtain ⟨i, hi, h⟩ := except_bind_ok h
  obtain ⟨resp, hresp, h⟩ := except_bind_ok h
  obtain ⟨name, hname, h⟩ := except_bind_ok h
  obtain ⟨id, hid, h⟩ := except_bind_ok h
  obtain ⟨response, hrespv, h⟩ := except_bind_ok h
  have hfr : fr = ⟨name, id, response⟩ := by
    simp only [pure, Except.pure, Except.ok.injEq] at h
    exact h.symm
  subst hfr
  simp only [pyGetD, Except.ok.injEq] at hresp
  rw [← hresp] at hrespv
  rcases hr : jsonLookup fields "response" with _ | v
  · rw [hr] at hrespv
    simp only [Option.getD_none, defaultResultOk, validateOptDict,
      Except.ok.injEq] at hrespv
    simp [← hrespv, defaultResultOk]
  · rw [hr] at hrespv
    rcases v with _ | b | nn | s | a | o
    · simp only [Option.getD_some, validateOptDict, Except.ok.injEq] at hrespv
      simp [← hrespv]
    · simp [validateOptDict] at hrespv
    · simp [validateOptDict] at hrespv
    · simp [validateOptDict] at hrespv
    · simp [validateOptDict] at hrespv
    · simp only [Option.getD_some, validateOptDict, Except.ok.injEq] at hrespv
      simp [← hrespv]

/-- C8 witness: a record without a response payload is forwarded with the
generic success marker. -/
theorem c8_function_response_payload_witness :
    (FunctionResponse.mk (some "f") none (some defaultResultOk)).response
      = some defaultResultOk :=
  c8_function_response_payload [("name", Json.str "f")]
    ⟨some "f", none, some defaultResultOk⟩ rfl

/-! Claim C10: a later tools block overwrites an earlier one. -/

/-- C10: when the tools list contains two blocks whose declaration lists
both parse, the resulting configuration carries exactly the declarations of
the second block: each block assigns the whole tools entry anew
(gemini_live.py line 94) instead of appending. -/
theorem c10_last_tools_block_wins (d1 d2 : List Json)
    (fds1 fds2 : List FunctionDeclaration)
    (h1 : exceptMapList parseFD d1 = .ok fds1)
    (h2 : exceptMapList parseFD d2 = .ok fds2) :
    ∃ cfg, configArgsOfSetup (some (Json.obj
        [("tools", Json.arr
          [Json.obj [("functionDeclarations", Json.arr d1)],
           Json.obj [("functionDeclarations", Json.arr d2)]])]))
      = .ok cfg ∧ cfg.tools = some fds2 := by
  refine ⟨{ response_modalities := [Modality.audio], system_instruction := none,
            tools := some fds2, context_window_compression := false,
            output_audio_transcription := false, input_audio_transcription := false,
            speech_config := none }, ?_, rfl⟩
  simp [configArgsOfSetup, jsonTruthy, respModalitiesField, sysInstrField, toolsField,
    cwcField, speechField, pyContains, pyIndexStr, jsonLookup, toolsLoop, toolBlockStep,
    pyIter, h1, h2, strContainsSub, Bind.bind, Except.bind, pure, Except.pure]

/-- C10 witness: two one-declaration blocks named a and b leave only the
declaration named b in the configuration. -/
theorem c10_last_tools_block_wins_witness :
    ∃ cfg, configArgsOfSetup (some (Json.obj
        [("tools", Json.arr
          [Json.obj [("functionDeclarations",
              Json.arr [Json.obj [("name", Json.str "a")]])],
           Json.obj [("functionDeclarations",
              Json.arr [Json.obj [("name", Json.str "b")]])]])]))
      = .ok cfg
      ∧ cfg.tools = some [{ name := some "b", description := none, parameters := none }] :=
  c10_last_tools_block_wins
    [Json.obj [("name", Json.str "a")]] [Json.obj [("name", Json.str "b")]]
    [{ name := some "a", description := none, parameters := none }]
    [{ name := some "b", description := none, parameters := none }]
    rfl rfl
